import Mathlib

/-!
Verification development for the `assayinganomalies` CRSP panel-construction
pipeline (Rust, polars).  The repository contains two near-identical pipeline
variants, both named `make_crsp_monthly_data`: one in
`src/utilities/make_crsp_monthly_data.rs` (embedded in namespace `MakeV`
below) and one in `src/utilities/crsp_processing.rs` (namespace `CrspP`),
plus the delisting post-processor in
`src/utilities/make_crsp_derived_variables.rs`.

Modelling conventions (shallow embedding):
* A polars `DataFrame` of observation rows is a `List` of records; lazy-frame
  `filter`/`select`/`join` become the corresponding list operations.
* `chrono::NaiveDate` is a `(year, month, day)` record; chronological order is
  the order of the numeric `YYYYMMDD` encoding `toNum`, which agrees with
  chronological order on calendar-valid dates.
* Column values are modelled as `Option Int` (`none` = polars null).  The
  claims under study concern shape, ordering, filling and error flow, none of
  which depend on the concrete numeric domain, so floating columns are
  modelled over `Int` as well, with the column dtype carried separately
  (`DType`) for the dispatch in `process_variable`.
* `unique_stable` (polars keeps the first occurrence of each value, in order
  of appearance) is `unique_stable` below.
* The polars `pivot(df, on, index, values, sort_columns := false, ...)` call
  produces one row per first-occurrence-distinct `index` value and one column
  per first-occurrence-distinct `on` value; a cell holds the value of the
  first matching row (absent or null source values are null until
  `fill_null(Zero)` replaces them by `0`).
* File writes (`serde_json` + `File::create`) are modelled by returning the
  would-be file contents as values of the output record.
-/

namespace AssayingAnomalies

/-- `chrono::NaiveDate` as used by the pipeline. -/
structure Date where
  year : Nat
  month : Nat
  day : Nat
deriving DecidableEq, Repr

/-- Numeric `YYYYMMDD` encoding of a date; also the order used for all date
comparisons (it agrees with chronological order on calendar-valid dates).
This is what `dt().to_string("%Y%m%d")` followed by a cast to `Int32`
produces. -/
def Date.toNum (d : Date) : Nat := d.year * 10000 + d.month * 100 + d.day

/-- Numeric `YYYYMM` month truncation, i.e. `dt().to_string("%Y%m")`
followed by a cast to `Int32`. -/
def Date.toYYYYMM (d : Date) : Nat := d.year * 100 + d.month

/-- Strict chronological comparison (`col(a).lt(col(b))` on date columns). -/
def Date.lt (a b : Date) : Bool := a.toNum < b.toNum

/-- Inclusive chronological comparison (`col(a).lt_eq(col(b))`). -/
def Date.le (a b : Date) : Bool := a.toNum ≤ b.toNum

/-- Calendar-wellformedness of the month/day fields, enough for the
`YYYYMMDD` encoding to be injective. -/
def Date.Valid (d : Date) : Prop :=
  1 ≤ d.month ∧ d.month ≤ 12 ∧ 1 ≤ d.day ∧ d.day ≤ 31

instance (d : Date) : Decidable d.Valid := by
  unfold Date.Valid; infer_instance

/-- Polars `Expr::unique_stable` on a materialized column: the distinct
values in order of first appearance.  `seen` accumulates the values already
emitted. -/
def unique_stable_aux {α : Type} [DecidableEq α] : List α → List α → List α
  | _, [] => []
  | seen, x :: xs =>
    if x ∈ seen then unique_stable_aux seen xs
    else x :: unique_stable_aux (x :: seen) xs

/-- Polars `unique_stable`: distinct values, first-occurrence order. -/
def unique_stable {α : Type} [DecidableEq α] (l : List α) : List α :=
  unique_stable_aux [] l

instance {ε α : Type} [DecidableEq ε] [DecidableEq α] :
    DecidableEq (Except ε α) := fun a b =>
  match a, b with
  | .ok x, .ok y =>
    if h : x = y then .isTrue (by rw [h]) else .isFalse (by simp [h])
  | .error x, .error y =>
    if h : x = y then .isTrue (by rw [h]) else .isFalse (by simp [h])
  | .ok _, .error _ => .isFalse (by simp)
  | .error _, .ok _ => .isFalse (by simp)

/-- One row of `crsp_msf.parquet` (the monthly observation table): the key
columns plus the remaining value columns as an association list modelling the
polars row (`none` = null cell). -/
structure MsfRow where
  permno : Int
  date : Date
  vals : List (String × Option Int)
deriving DecidableEq, Repr

/-- One row of `crsp_mseexchdates.parquet` (the membership / name-history
table). -/
structure MseRow where
  permno : Int
  namedt : Date
  nameendt : Date
  shrcd : Int
  exchcd : Int
  siccd : Int
deriving DecidableEq, Repr

/-- A row of the left join `crsp_msf ⟕ crsp_mseexchdates` on `permno`:
the observation columns plus the (possibly null, when no membership row
matched) membership columns. -/
structure JoinedRow where
  obs : MsfRow
  mem : Option MseRow
deriving DecidableEq, Repr

/-- The polars left join on `permno` (`JoinArgs::new(JoinType::Left)`):
every left row is paired with each matching right row, or kept once with
null right columns when no right row matches. -/
def leftJoin (obs : List MsfRow) (mems : List MseRow) : List JoinedRow :=
  obs.flatMap fun o =>
    match mems.filter (fun m => m.permno == o.permno) with
    | [] => [⟨o, none⟩]
    | ms => ms.map fun m => ⟨o, some m⟩

/-- The point-in-time window filter
`col("date").gt(col("namedt")).and(col("date").lt(col("nameendt")))`.
Comparisons against the null membership columns of an unmatched left row are
null in polars, and a null mask drops the row. -/
def windowPred (r : JoinedRow) : Bool :=
  match r.mem with
  | none => false
  | some m => Date.lt m.namedt r.obs.date && Date.lt r.obs.date m.nameendt

def windowFilter (rows : List JoinedRow) : List JoinedRow :=
  rows.filter windowPred

/-- Configuration parameters (`Params` in both Rust files); the `directory`
field only names file paths and is omitted. -/
structure Params where
  sampleStart : Date
  sampleEnd : Date
  domComEqFlag : Bool

/-- The sample-range filter
`col("date").gt_eq(lit(sample_start)).and(col("date").lt_eq(lit(sample_end)))`. -/
def samplePred (p : Params) (r : JoinedRow) : Bool :=
  Date.le p.sampleStart r.obs.date && Date.le r.obs.date p.sampleEnd

def sampleFilter (p : Params) (rows : List JoinedRow) : List JoinedRow :=
  rows.filter (samplePred p)

/-- The optional domestic-common-equity filter
`col("shrcd").eq(lit(10)).or(col("shrcd").eq(lit(11)))`, applied only when
`dom_com_eq_flag` is set.  `shrcd` is a membership column, so on an unmatched
left row the comparison is null and the row is dropped. -/
def shrcdPred (r : JoinedRow) : Bool :=
  match r.mem with
  | none => false
  | some m => m.shrcd == 10 || m.shrcd == 11

def shrcdFilter (p : Params) (rows : List JoinedRow) : List JoinedRow :=
  if p.domComEqFlag then rows.filter shrcdPred else rows

/-- The join + filter stage producing the assembled panel (`result` in the
Rust sources).  The code of this stage is line-identical in
`make_crsp_monthly_data.rs` (lines 33-66) and `crsp_processing.rs`
(lines 39-70), so it is defined once and shared by both variant embeddings. -/
def assemblePanel (obs : List MsfRow) (mems : List MseRow) (p : Params) :
    List JoinedRow :=
  shrcdFilter p (sampleFilter p (windowFilter (leftJoin obs mems)))

/-- Value of a named column of a joined-panel row.  `shrcd`, `exchcd` and
`siccd` are columns the join brings in from `crsp_mseexchdates`; every other
name is looked up among the observation columns of `crsp_msf`. -/
def rowVal (r : JoinedRow) (name : String) : Option Int :=
  if name = "shrcd" then r.mem.map MseRow.shrcd
  else if name = "exchcd" then r.mem.map MseRow.exchcd
  else if name = "siccd" then r.mem.map MseRow.siccd
  else (r.obs.vals.lookup name).getD none

/-- Polars column dtypes relevant to the `process_variable` dispatch. -/
inductive DType
  | int16 | int32 | int64 | float32 | float64 | str | date | boolean
deriving DecidableEq, Repr

/-- Whether the dtype has a pivot/serialization rule, i.e. is one of the five
arms of the `match column_type.dtype` in either variant. -/
def DType.supported : DType → Bool
  | .int16 | .int32 | .int64 | .float32 | .float64 => true
  | _ => false

/-- A row of the three-column projection
`select([col("permno"), col("date"), col(var_name)])` (`temp_df`). -/
structure ProjRow where
  permno : Int
  date : Date
  value : Option Int
deriving DecidableEq, Repr

/-- The value the polars pivot places in the cell for permno `p` and raw date
`d`: the variable value of the first projected row with those keys, null when
no such row exists (or the source value is itself null). -/
def pivotCell (rows : List ProjRow) (p : Int) (d : Date) : Option Int :=
  (rows.find? fun r => r.permno == p && r.date == d).bind ProjRow.value

/-- A pivot cell after `fill_null(FillNullStrategy::Zero)`. -/
def pivotCellFilled (rows : List ProjRow) (p : Int) (d : Date) : Int :=
  (pivotCell rows p d).getD 0

/-- Row keys of the permno column of the projection (used as pivot `index` by
the `crsp_processing.rs` variant and as pivot `on` by the
`make_crsp_monthly_data.rs` variant). -/
def permnoKeys (rows : List ProjRow) : List Int :=
  unique_stable (rows.map ProjRow.permno)

/-- Key order of the raw date column of the projection. -/
def dateKeys (rows : List ProjRow) : List Date :=
  unique_stable (rows.map ProjRow.date)

/-- `col("permno").unique_stable()` over the assembled panel: the contents of
`permno.json`.  The expression is identical in both pipeline variants
(`save_unique_column(.., "permno", ..)` and the inline block of
`crsp_processing.rs`). -/
def permnoAxis (panel : List JoinedRow) : List Int :=
  unique_stable (panel.map fun r => r.obs.permno)

namespace MakeV

/-- `make_crsp_monthly_data.rs` renames `ret` to `ret_x_dl` and `vol` to
`vol_x_adj` before the variable loop; reading the renamed frame at one of the
new names reads the original column. -/
def srcName (v : String) : String :=
  if v = "ret_x_dl" then "ret" else if v = "vol_x_adj" then "vol" else v

/-- `select([col("permno"), col("date"), col(var_name)])` over the renamed
panel (`temp_df` in `process_variable`). -/
def projectVar (panel : List JoinedRow) (v : String) : List ProjRow :=
  panel.map fun r => ⟨r.obs.permno, r.obs.date, rowVal r (srcName v)⟩

/-- `save_unique_dates`: `col("date").dt().to_string("%Y%m").unique_stable()`
cast to `Int32` — the contents of `dates.json` for this variant (month
truncation). -/
def datesAxis (panel : List JoinedRow) : List Nat :=
  unique_stable (panel.map fun r => r.obs.date.toYYYYMM)

/-- `save_link_file`: the `(permno, YYYYMM)` rows of `crsp_link.json`. -/
def save_link_file (panel : List JoinedRow) : List (Int × Nat) :=
  panel.map fun r => (r.obs.permno, r.obs.date.toYYYYMM)

/-- The pivot of `process_variable` in `make_crsp_monthly_data.rs`:
`pivot(&temp_df, ["permno"], Some(["date"]), Some([var_name]), false, ..)`
(i.e. `on` = permno, `index` = date, matching the source comment
"to dimension nMonths x nPermno"), then `fill_null(Zero)`, then dropping the
`date` index column, leaving one row per distinct raw date and one column per
distinct permno. -/
def pivotFilled (rows : List ProjRow) : List (List Int) :=
  (dateKeys rows).map fun d =>
    (permnoKeys rows).map fun p => pivotCellFilled rows p d

/-- `process_variable`: project, look the dtype up in the schema, pivot and
fill, then dispatch on the dtype — the wildcard arm returns
`Err(anyhow!("Unsupported data type for {}", var_name))`. -/
def process_variable (panel : List JoinedRow) (dtypes : List (String × DType))
    (v : String) : Except String (List (List Int)) :=
  let temp := projectVar panel v
  let column_type := (dtypes.lookup v).getD DType.str
  let pivoted := pivotFilled temp
  if column_type.supported then .ok pivoted
  else .error ("Unsupported data type for " ++ v)

/-- The variable loop of `make_crsp_monthly_data.rs`: each iteration calls
`process_variable(..)?`, so the first error aborts the whole run. -/
def processAll (panel : List JoinedRow) (dtypes : List (String × DType)) :
    List String → Except String (List (String × List (List Int)))
  | [] => .ok []
  | v :: rest =>
    match process_variable panel dtypes v with
    | .error e => .error e
    | .ok m =>
      match processAll panel dtypes rest with
      | .error e => .error e
      | .ok ms => .ok ((v, m) :: ms)

/-- The `var_names` list of `make_crsp_monthly_data.rs` (after renaming). -/
def varNames : List String :=
  ["shrcd", "exchcd", "siccd", "prc", "bid", "ask", "bidlo", "askhi",
   "vol_x_adj", "ret_x_dl", "shrout", "cfacpr", "cfacshr", "spread", "retx"]

/-- The files this variant persists, modelled as values: `permno.json`,
`dates.json`, `crsp_link.json` and one matrix file per variable. -/
structure Outputs where
  permnoJson : List Int
  datesJson : List Nat
  crspLink : List (Int × Nat)
  matrices : List (String × List (List Int))
deriving DecidableEq, Repr

/-- `make_crsp_monthly_data` of `make_crsp_monthly_data.rs`: join + filters,
persist the axes and the link file, rename `ret`/`vol`, then run the
variable loop (whose first failure propagates through `?`).  The schema of
the loaded parquet files is the `dtypes` argument. -/
def make_crsp_monthly_data (obs : List MsfRow) (mems : List MseRow)
    (dtypes : List (String × DType)) (p : Params) : Except String Outputs :=
  let result := assemblePanel obs mems p
  let permnoJson := permnoAxis result
  let datesJson := datesAxis result
  let link := save_link_file result
  match processAll result dtypes varNames with
  | .error e => .error e
  | .ok ms => .ok ⟨permnoJson, datesJson, link, ms⟩

end MakeV

namespace CrspP

/-- `select([col("permno"), col("date"), col(var_name)])` (`temp_df` in the
`crsp_processing.rs` loop; no renaming happens in this variant). -/
def projectVar (panel : List JoinedRow) (v : String) : List ProjRow :=
  panel.map fun r => ⟨r.obs.permno, r.obs.date, rowVal r v⟩

/-- `col("date").dt().to_string("%Y%m%d").unique_stable()` cast to `Int32` —
the contents of `dates.json` for this variant (full-day encoding). -/
def datesAxis (panel : List JoinedRow) : List Nat :=
  unique_stable (panel.map fun r => r.obs.date.toNum)

/-- The pivot of the `crsp_processing.rs` loop:
`pivot(&temp_df, ["date"], Some(["permno"]), Some([var_name]), false, ..)`
(`on` = date, `index` = permno, matching the source comment "permno as rows,
dates as columns"), then `fill_null(Zero)`, then dropping the `permno` index
column, leaving one row per distinct permno and one column per distinct raw
date. -/
def pivotFilled (rows : List ProjRow) : List (List Int) :=
  (permnoKeys rows).map fun p =>
    (dateKeys rows).map fun d => pivotCellFilled rows p d

/-- The variable loop of `crsp_processing.rs`: the `match column_type.dtype`
saves the matrix for the five supported dtypes and on any other dtype only
prints "Unsupported data type." and falls through to the next variable. -/
def processAll (panel : List JoinedRow) (dtypes : List (String × DType)) :
    List String → List (String × List (List Int))
  | [] => []
  | v :: rest =>
    let temp := projectVar panel v
    let column_type := (dtypes.lookup v).getD DType.str
    let matrix := pivotFilled temp
    if column_type.supported then (v, matrix) :: processAll panel dtypes rest
    else processAll panel dtypes rest

/-- The `var_names` list of `crsp_processing.rs` (`vol_x_adj` and `ret_x_dl`
are commented out there). -/
def varNames : List String :=
  ["shrcd", "exchcd", "siccd", "prc", "bid", "ask", "bidlo", "askhi",
   "shrout", "cfacpr", "cfacshr", "spread", "retx"]

/-- The files this variant persists: `permno.json`, `dates.json` and one
matrix file per supported variable (no link file in this variant). -/
structure Outputs where
  permnoJson : List Int
  datesJson : List Nat
  matrices : List (String × List (List Int))
deriving DecidableEq, Repr

/-- `make_crsp_monthly_data` of `crsp_processing.rs`: the same join + filter
stage, the two axis files, then the per-variable loop in which unsupported
dtypes are skipped. -/
def make_crsp_monthly_data (obs : List MsfRow) (mems : List MseRow)
    (dtypes : List (String × DType)) (p : Params) : Outputs :=
  let result := assemblePanel obs mems p
  ⟨permnoAxis result, datesAxis result, processAll result dtypes varNames⟩

end CrspP

/-- One row of `crsp_msedelist.parquet`. -/
structure DelistRow where
  permno : Int
  dlstdt : Date
  dlret : Option Int
deriving DecidableEq, Repr

/-- A delisting row after `with_columns` added the truncated `date` column. -/
structure DelistDated where
  row : DelistRow
  date : Nat
deriving DecidableEq, Repr

/-- `col("dlstdt").max()` over the whole delisting table (the value the
`neq` in the first filter compares against). -/
def maxDlstdt (ms : List DelistRow) : Nat :=
  ms.foldl (fun a r => max a r.dlstdt.toNum) 0

/-- `date.iter().cloned().max().unwrap()` over the loaded `dates.json`
axis (the Rust `unwrap` panics on an empty axis, so theorems about this
value assume a nonempty axis where it matters). -/
def listMax (l : List Nat) : Nat := l.foldl max 0

/-- `filter_delisting_data` of `make_crsp_derived_variables.rs`:
keep rows whose `permno` is in the loaded `permno.json` array and whose
`dlstdt` differs from the table-wide maximum `dlstdt`; add
`date := dlstdt` formatted `%Y%m` and cast to `Int32`; keep rows whose
`date` is strictly below the maximum of the loaded `dates.json` array. -/
def filter_delisting_data (crsp_msedelist : List DelistRow)
    (permno : List Int) (date : List Nat) : List DelistDated :=
  let f1 := crsp_msedelist.filter fun r =>
    permno.contains r.permno && r.dlstdt.toNum != maxDlstdt crsp_msedelist
  let withDate := f1.map fun r => DelistDated.mk r r.dlstdt.toYYYYMM
  withDate.filter fun r => r.date < listMax date

/-- `make_crsp_derived_variables`: load `ret_x_dl.json`, `permno.json` and
`dates.json` (modelled as arguments), filter the delisting table, `dbg!` the
result and return `Ok(())`.  The function's observable result is the
filtered frame, so the model returns it; no error path other than I/O
exists in the source. -/
def make_crsp_derived_variables (ret_x_dl : List (List Int))
    (permno : List Int) (date : List Nat)
    (crsp_msedelist : List DelistRow) : List DelistDated :=
  filter_delisting_data crsp_msedelist permno date

/-! ### Concrete inputs used to evaluate the definitions -/

/-- Observation columns of `crsp_msf` beyond the keys, all set to `v`. -/
def mkVals (v : Int) : List (String × Option Int) :=
  [("prc", some v), ("bid", some v), ("ask", some v), ("bidlo", some v),
   ("askhi", some v), ("vol", some v), ("ret", some v), ("shrout", some v),
   ("cfacpr", some v), ("cfacshr", some v), ("spread", some v),
   ("retx", some v)]

/-- A parquet schema giving every requested variable a supported dtype
(the dtypes CRSP actually uses for these columns). -/
def exDtypes : List (String × DType) :=
  [("shrcd", .int16), ("exchcd", .int16), ("siccd", .int32),
   ("prc", .float64), ("bid", .float64), ("ask", .float64),
   ("bidlo", .float64), ("askhi", .float64), ("vol_x_adj", .int64),
   ("ret_x_dl", .float64), ("shrout", .int32), ("cfacpr", .float64),
   ("cfacshr", .float64), ("spread", .float64), ("retx", .float64)]

/-- The same schema with `shrcd` given a dtype outside the five pivot
arms. -/
def exDtypesBad : List (String × DType) :=
  ("shrcd", DType.str) :: exDtypes.tail

/-- Membership record for permno 1, valid `(1999-12-01, 2000-03-01)`,
share code 10. -/
def mse1 : MseRow := ⟨1, ⟨1999, 12, 1⟩, ⟨2000, 3, 1⟩, 10, 1, 100⟩

/-- Membership record for permno 2, same window and share code. -/
def mse2 : MseRow := ⟨2, ⟨1999, 12, 1⟩, ⟨2000, 3, 1⟩, 10, 1, 100⟩

def obsA : MsfRow := ⟨1, ⟨2000, 1, 31⟩, mkVals 5⟩
def obsB : MsfRow := ⟨1, ⟨2000, 2, 29⟩, mkVals 6⟩
def obsC : MsfRow := ⟨2, ⟨2000, 2, 29⟩, mkVals 7⟩
def obsD : MsfRow := ⟨1, ⟨2000, 1, 31⟩, mkVals 8⟩

/-- Two observations of permno 1 in consecutive months. -/
def exObs : List MsfRow := [obsA, obsB]

def exMems : List MseRow := [mse1]

def exParams : Params := ⟨⟨2000, 1, 1⟩, ⟨2001, 12, 31⟩, true⟩

/-- Sample window whose endpoints coincide with the two observation dates. -/
def exParamsTight : Params := ⟨⟨2000, 1, 31⟩, ⟨2000, 2, 29⟩, true⟩

/-- Observations arriving with permnos and dates out of ascending order. -/
def exObs4 : List MsfRow := [obsC, obsD]

def exMems4 : List MseRow := [mse2, mse1]

/-- Delisting table: a genuine event for permno 1 dated 2000-02-15 plus a
later row carrying the table's maximum `dlstdt`. -/
def exDelist : List DelistRow :=
  [⟨1, ⟨2000, 2, 15⟩, some 3⟩, ⟨1, ⟨2099, 12, 31⟩, some 0⟩]

/-- Delisting table whose events reference permno 7 only. -/
def exDelist8 : List DelistRow :=
  [⟨7, ⟨2000, 1, 15⟩, some 2⟩, ⟨7, ⟨2099, 1, 1⟩, none⟩]

/-- A sparse two-permno, two-date projection: the pairs `(1, 2000-02-29)`
and `(2, 2000-01-31)` have no observation. -/
def exProj : List ProjRow :=
  [⟨1, ⟨2000, 1, 31⟩, some 5⟩, ⟨2, ⟨2000, 2, 29⟩, some 6⟩]

/-! ### Helper lemmas -/

theorem Date.toNum_inj {a b : Date} (ha : a.Valid) (hb : b.Valid)
    (h : a.toNum = b.toNum) : a = b := by
  obtain ⟨y, m, d⟩ := a
  obtain ⟨y', m', d'⟩ := b
  simp only [Date.toNum] at h
  obtain ⟨hm1, hm2, hd1, hd2⟩ := ha
  obtain ⟨hm1', hm2', hd1', hd2'⟩ := hb
  simp only at hm1 hm2 hd1 hd2 hm1' hm2' hd1' hd2'
  have : y = y' ∧ m = m' ∧ d = d' := by omega
  simp [this.1, this.2.1, this.2.2]

theorem mem_unique_stable_aux {α : Type} [DecidableEq α] (seen l : List α)
    (x : α) : x ∈ unique_stable_aux seen l ↔ x ∈ l ∧ x ∉ seen := by
  induction l generalizing seen with
  | nil => simp [unique_stable_aux]
  | cons y ys ih =>
    by_cases hy : y ∈ seen
    · simp only [unique_stable_aux, if_pos hy, ih, List.mem_cons]
      constructor
      · exact fun ⟨h1, h2⟩ => ⟨Or.inr h1, h2⟩
      · rintro ⟨h1 | h1, h2⟩
        · exact absurd (h1 ▸ hy) h2
        · exact ⟨h1, h2⟩
    · simp only [unique_stable_aux, if_neg hy, List.mem_cons, ih, not_or]
      constructor
      · rintro (rfl | ⟨h1, h2⟩)
        · exact ⟨Or.inl rfl, hy⟩
        · exact ⟨Or.inr h1, h2.2⟩
      · rintro ⟨rfl | h1, h2⟩
        · exact Or.inl rfl
        · rcases eq_or_ne x y with rfl | hxy
          · exact Or.inl rfl
          · exact Or.inr ⟨h1, hxy, h2⟩

theorem unique_stable_aux_sublist {α : Type} [DecidableEq α]
    (seen l : List α) : List.Sublist (unique_stable_aux seen l) l := by
  induction l generalizing seen with
  | nil => simp [unique_stable_aux]
  | cons y ys ih =>
    by_cases hy : y ∈ seen
    · simp only [unique_stable_aux, if_pos hy]
      exact (ih seen).trans (List.sublist_cons_self y ys)
    · simp only [unique_stable_aux, if_neg hy]
      exact List.Sublist.cons₂ y (ih (y :: seen))

theorem unique_stable_aux_nodup {α : Type} [DecidableEq α]
    (seen l : List α) : (unique_stable_aux seen l).Nodup := by
  induction l generalizing seen with
  | nil => simp [unique_stable_aux]
  | cons y ys ih =>
    by_cases hy : y ∈ seen
    · simpa only [unique_stable_aux, if_pos hy] using ih seen
    · simp only [unique_stable_aux, if_neg hy, List.nodup_cons]
      refine ⟨fun hmem => ?_, ih (y :: seen)⟩
      exact ((mem_unique_stable_aux _ _ _).1 hmem).2 (List.mem_cons_self y seen)

theorem unique_stable_aux_map {α β : Type} [DecidableEq α] [DecidableEq β]
    (f : α → β) (seen l : List α)
    (hinj : ∀ a, (a ∈ seen ∨ a ∈ l) → ∀ b, (b ∈ seen ∨ b ∈ l) →
      f a = f b → a = b) :
    unique_stable_aux (seen.map f) (l.map f) =
      (unique_stable_aux seen l).map f := by
  induction l generalizing seen with
  | nil => simp [unique_stable_aux]
  | cons y ys ih =>
    have hmemiff : f y ∈ seen.map f ↔ y ∈ seen := by
      constructor
      · intro h
        obtain ⟨a, ha, hfa⟩ := List.mem_map.1 h
        have hay : a = y :=
          hinj a (Or.inl ha) y (Or.inr (List.mem_cons_self y ys)) hfa
        rwa [hay] at ha
      · exact fun h => List.mem_map_of_mem f h
    by_cases hy : y ∈ seen
    · simp only [List.map_cons, unique_stable_aux, if_pos (hmemiff.2 hy),
        if_pos hy]
      refine ih seen (fun a ha b hb => hinj a ?_ b ?_) <;>
        first
        | exact ha.imp id (fun h => List.mem_cons_of_mem y h)
        | exact hb.imp id (fun h => List.mem_cons_of_mem y h)
    · simp only [List.map_cons, unique_stable_aux,
        if_neg (fun h => hy (hmemiff.1 h)), if_neg hy]
      have hrec := ih (y :: seen) (by
        intro a ha b hb
        refine hinj a ?_ b ?_ <;> simp only [List.mem_cons] at * <;> tauto)
      simp only [List.map_cons] at hrec
      rw [hrec]

theorem mem_unique_stable {α : Type} [DecidableEq α] (l : List α) (x : α) :
    x ∈ unique_stable l ↔ x ∈ l := by
  simp [unique_stable, mem_unique_stable_aux]

theorem unique_stable_sublist {α : Type} [DecidableEq α] (l : List α) :
    List.Sublist (unique_stable l) l :=
  unique_stable_aux_sublist [] l

theorem unique_stable_nodup {α : Type} [DecidableEq α] (l : List α) :
    (unique_stable l).Nodup :=
  unique_stable_aux_nodup [] l

theorem unique_stable_map {α β : Type} [DecidableEq α] [DecidableEq β]
    (f : α → β) (l : List α)
    (hinj : ∀ a ∈ l, ∀ b ∈ l, f a = f b → a = b) :
    unique_stable (l.map f) = (unique_stable l).map f := by
  simpa [unique_stable] using
    unique_stable_aux_map f [] l (by simpa using hinj)

/-- Membership in the assembled panel implies membership in the
window-filtered join (the later filters only remove rows). -/
theorem mem_windowFilter_of_mem_assemblePanel {obs : List MsfRow}
    {mems : List MseRow} {p : Params} {r : JoinedRow}
    (hr : r ∈ assemblePanel obs mems p) :
    r ∈ sampleFilter p (windowFilter (leftJoin obs mems)) := by
  unfold assemblePanel shrcdFilter at hr
  split at hr
  · exact (List.mem_filter.1 hr).1
  · exact hr

/-! ### Claim theorems -/

/-- Claim C1: every row surviving the Panel Assembler join (the left join of
`crsp_msf` to `crsp_mseexchdates` on `permno` followed by the window filter)
carries a membership record with `namedt < date < nameendt` strictly; by
contraposition a joined row whose date equals or falls outside a
membership-window endpoint is never in the panel. -/
theorem point_in_time_strict (obs : List MsfRow) (mems : List MseRow)
    (p : Params) (r : JoinedRow) (hr : r ∈ assemblePanel obs mems p) :
    ∃ m, r.mem = some m ∧ m.namedt.toNum < r.obs.date.toNum ∧
      r.obs.date.toNum < m.nameendt.toNum := by
  have hw : r ∈ windowFilter (leftJoin obs mems) :=
    (List.mem_filter.1 (mem_windowFilter_of_mem_assemblePanel hr)).1
  have hpred := (List.mem_filter.1 hw).2
  unfold windowPred at hpred
  match hm : r.mem with
  | none => rw [hm] at hpred; simp at hpred
  | some m =>
    rw [hm] at hpred
    simp only [Bool.and_eq_true, Date.lt, decide_eq_true_eq] at hpred
    exact ⟨m, rfl, hpred.1, hpred.2⟩

/-- Witness for C1: the January row of the concrete panel strictly inside
its membership window. -/
theorem point_in_time_strict_witness :
    ∃ m, (JoinedRow.mk obsA (some mse1)).mem = some m ∧
      m.namedt.toNum < obsA.date.toNum ∧
      obsA.date.toNum < m.nameendt.toNum :=
  point_in_time_strict exObs exMems exParams ⟨obsA, some mse1⟩ (by decide)

/-- Claim C9: every row of the assembled panel satisfies
`sample_start ≤ date ≤ sample_end`, and the sample filter retains exactly
the window-filtered rows inside the closed interval — rows with `date` equal
to either endpoint are kept, rows outside are dropped. -/
theorem sample_bound_inclusive (obs : List MsfRow) (mems : List MseRow)
    (p : Params) :
    (∀ r ∈ assemblePanel obs mems p,
      p.sampleStart.toNum ≤ r.obs.date.toNum ∧
      r.obs.date.toNum ≤ p.sampleEnd.toNum) ∧
    (∀ r ∈ windowFilter (leftJoin obs mems),
      (r ∈ sampleFilter p (windowFilter (leftJoin obs mems)) ↔
        p.sampleStart.toNum ≤ r.obs.date.toNum ∧
        r.obs.date.toNum ≤ p.sampleEnd.toNum)) := by
  constructor
  · intro r hr
    have h2 := (List.mem_filter.1 (mem_windowFilter_of_mem_assemblePanel hr)).2
    simpa [samplePred, Date.le] using h2
  · intro r hrw
    rw [sampleFilter, List.mem_filter]
    simp [samplePred, Date.le, hrw]

/-- Witness for C9: with the sample window `[2000-01-31, 2000-02-29]` both
concrete rows sit exactly on an endpoint and both are retained by the sample
filter. -/
theorem sample_bound_inclusive_witness :
    JoinedRow.mk obsA (some mse1) ∈
      sampleFilter exParamsTight (windowFilter (leftJoin exObs exMems)) ∧
    JoinedRow.mk obsB (some mse1) ∈
      sampleFilter exParamsTight (windowFilter (leftJoin exObs exMems)) :=
  ⟨((sample_bound_inclusive exObs exMems exParamsTight).2 _
      (by decide)).mpr (by decide),
   ((sample_bound_inclusive exObs exMems exParamsTight).2 _
      (by decide)).mpr (by decide)⟩

/-- Claim C3: a pivot cell whose `(permno, date)` key pair has no matching
projected row is numeric zero after `fill_null(Zero)` — never null and never
a non-zero sentinel — and that zero cell genuinely occurs in the persisted
matrix of both pipeline variants at the position of the declared axes. -/
theorem fill_policy_zero (rows : List ProjRow) (p : Int) (d : Date)
    (hp : p ∈ permnoKeys rows) (hd : d ∈ dateKeys rows)
    (habs : ∀ r ∈ rows, ¬(r.permno = p ∧ r.date = d)) :
    pivotCellFilled rows p d = 0 ∧
    pivotCellFilled rows p d ∈ (CrspP.pivotFilled rows).flatten ∧
    pivotCellFilled rows p d ∈ (MakeV.pivotFilled rows).flatten := by
  have h0 : pivotCellFilled rows p d = 0 := by
    unfold pivotCellFilled pivotCell
    have hfind : (rows.find? fun r => r.permno == p && r.date == d) = none :=
      List.find?_eq_none.2 (fun r hr => by
        have hnot := habs r hr
        simp only [Bool.and_eq_true, beq_iff_eq, not_and] at hnot ⊢
        tauto)
    rw [hfind]; rfl
  refine ⟨h0, ?_, ?_⟩
  · rw [List.mem_flatten]
    exact ⟨(dateKeys rows).map (fun dd => pivotCellFilled rows p dd),
      List.mem_map_of_mem _ hp, List.mem_map_of_mem _ hd⟩
  · rw [List.mem_flatten]
    exact ⟨(permnoKeys rows).map (fun pp => pivotCellFilled rows pp d),
      List.mem_map_of_mem _ hd, List.mem_map_of_mem _ hp⟩

/-- Witness for C3: in a projection with rows `(1, 2000-01-31)` and
`(2, 2000-02-29)`, the structurally absent cell `(1, 2000-02-29)` is zero in
both variants' matrices. -/
theorem fill_policy_zero_witness :
    pivotCellFilled exProj 1 ⟨2000, 2, 29⟩ = 0 ∧
    pivotCellFilled exProj 1 ⟨2000, 2, 29⟩ ∈ (CrspP.pivotFilled exProj).flatten ∧
    pivotCellFilled exProj 1 ⟨2000, 2, 29⟩ ∈ (MakeV.pivotFilled exProj).flatten :=
  fill_policy_zero exProj 1 ⟨2000, 2, 29⟩ (by decide) (by decide) (by decide)

/-- The permno column of either variant's three-column projection is the
permno column of the panel. -/
theorem projectVar_map_permno (panel : List JoinedRow) (v : String) :
    (CrspP.projectVar panel v).map ProjRow.permno =
      panel.map (fun r => r.obs.permno) ∧
    (MakeV.projectVar panel v).map ProjRow.permno =
      panel.map (fun r => r.obs.permno) := by
  constructor <;> simp [CrspP.projectVar, MakeV.projectVar, List.map_map]

/-- The date column of either variant's three-column projection is the date
column of the panel. -/
theorem projectVar_map_date (panel : List JoinedRow) (v : String) :
    (CrspP.projectVar panel v).map ProjRow.date =
      panel.map (fun r => r.obs.date) ∧
    (MakeV.projectVar panel v).map ProjRow.date =
      panel.map (fun r => r.obs.date) := by
  constructor <;> simp [CrspP.projectVar, MakeV.projectVar, List.map_map]

/-- Claim C2 counterexample: on a panel with one permno and two months, the
`make_crsp_monthly_data.rs` variant persists Entity Axis `[1]` (length 1) and
Period Axis `[200001, 200002]` (length 2), but its `retx` matrix is
`[[5], [6]]` — shape `(2, 1)`, the transpose of the claimed
`(|Entity Axis|, |Period Axis|) = (1, 2)`. -/
theorem shape_invariant_counterexample :
    (MakeV.make_crsp_monthly_data exObs exMems exDtypes exParams).map
        (fun o => (o.permnoJson, o.datesJson, o.matrices.lookup "retx")) =
      .ok ([1], [200001, 200002], some [[5], [6]]) ∧
    ¬([[(5 : Int)], [6]].length = 1 ∧
      ∀ row ∈ [[(5 : Int)], [6]], row.length = 2) := by
  decide

/-- Claim C2 (amended): the `crsp_processing.rs` variant's matrix has shape
exactly `(|Entity Axis|, |Period Axis|)`; the `make_crsp_monthly_data.rs`
variant's matrix has the transposed shape — one row per distinct raw date of
the panel and one column per distinct permno. -/
theorem shape_invariant_amended (panel : List JoinedRow) (v : String)
    (hvalid : ∀ r ∈ panel, r.obs.date.Valid) :
    (CrspP.pivotFilled (CrspP.projectVar panel v)).length =
      (permnoAxis panel).length ∧
    (∀ row ∈ CrspP.pivotFilled (CrspP.projectVar panel v),
      row.length = (CrspP.datesAxis panel).length) ∧
    (MakeV.pivotFilled (MakeV.projectVar panel v)).length =
      (unique_stable (panel.map fun r => r.obs.date)).length ∧
    (∀ row ∈ MakeV.pivotFilled (MakeV.projectVar panel v),
      row.length = (permnoAxis panel).length) := by
  have hpermC : permnoKeys (CrspP.projectVar panel v) = permnoAxis panel := by
    unfold permnoKeys permnoAxis
    rw [(projectVar_map_permno panel v).1]
  have hpermM : permnoKeys (MakeV.projectVar panel v) = permnoAxis panel := by
    unfold permnoKeys permnoAxis
    rw [(projectVar_map_permno panel v).2]
  have hdateC : dateKeys (CrspP.projectVar panel v) =
      unique_stable (panel.map fun r => r.obs.date) := by
    unfold dateKeys
    rw [(projectVar_map_date panel v).1]
  have hdateM : dateKeys (MakeV.projectVar panel v) =
      unique_stable (panel.map fun r => r.obs.date) := by
    unfold dateKeys
    rw [(projectVar_map_date panel v).2]
  have haxis : (CrspP.datesAxis panel).length =
      (unique_stable (panel.map fun r => r.obs.date)).length := by
    have hinj : ∀ a ∈ panel.map (fun r => r.obs.date),
        ∀ b ∈ panel.map (fun r => r.obs.date),
        Date.toNum a = Date.toNum b → a = b := by
      intro a ha b hb hab
      obtain ⟨ra, hra, rfl⟩ := List.mem_map.1 ha
      obtain ⟨rb, hrb, rfl⟩ := List.mem_map.1 hb
      exact Date.toNum_inj (hvalid ra hra) (hvalid rb hrb) hab
    have hmm : (panel.map fun r => r.obs.date.toNum) =
        (panel.map fun r => r.obs.date).map Date.toNum := by
      rw [List.map_map]; rfl
    unfold CrspP.datesAxis
    rw [hmm, unique_stable_map Date.toNum _ hinj, List.length_map]
  refine ⟨?_, ?_, ?_, ?_⟩
  · unfold CrspP.pivotFilled
    rw [List.length_map, hpermC]
  · intro row hrow
    unfold CrspP.pivotFilled at hrow
    obtain ⟨pk, _, rfl⟩ := List.mem_map.1 hrow
    rw [List.length_map, hdateC, haxis]
  · unfold MakeV.pivotFilled
    rw [List.length_map, hdateM]
  · intro row hrow
    unfold MakeV.pivotFilled at hrow
    obtain ⟨dk, _, rfl⟩ := List.mem_map.1 hrow
    rw [List.length_map, hpermM]

/-- Witness for the amended C2, on the concrete two-month panel. -/
theorem shape_invariant_amended_witness :
    (CrspP.pivotFilled
        (CrspP.projectVar (assemblePanel exObs exMems exParams) "retx")).length =
      (permnoAxis (assemblePanel exObs exMems exParams)).length ∧
    (∀ row ∈ CrspP.pivotFilled
        (CrspP.projectVar (assemblePanel exObs exMems exParams) "retx"),
      row.length = (CrspP.datesAxis (assemblePanel exObs exMems exParams)).length) ∧
    (MakeV.pivotFilled
        (MakeV.projectVar (assemblePanel exObs exMems exParams) "retx")).length =
      (unique_stable ((assemblePanel exObs exMems exParams).map
        fun r => r.obs.date)).length ∧
    (∀ row ∈ MakeV.pivotFilled
        (MakeV.projectVar (assemblePanel exObs exMems exParams) "retx"),
      row.length = (permnoAxis (assemblePanel exObs exMems exParams)).length) :=
  shape_invariant_amended (assemblePanel exObs exMems exParams) "retx"
    (by decide)

/-- Claim C4 counterexample: when the panel's rows arrive with permnos
`[2, 1]` and months `[200002, 200001]`, the persisted axes keep exactly that
order — `unique_stable` preserves first appearance and nothing sorts, so
neither axis is ascending. -/
theorem axis_order_counterexample :
    (MakeV.make_crsp_monthly_data exObs4 exMems4 exDtypes exParams).map
        (fun o => (o.permnoJson, o.datesJson)) =
      .ok ([2, 1], [200002, 200001]) ∧
    ¬List.Sorted (· ≤ ·) [(2 : Int), 1] ∧
    ¬List.Sorted (· ≤ ·) [(200002 : Nat), 200001] := by
  refine ⟨by decide, ?_, ?_⟩ <;>
    · intro h
      have := List.rel_of_sorted_cons h _ (List.mem_singleton.2 rfl)
      omega

/-- Claim C4 (amended): the persisted Entity and Period axes are the
duplicate-free subsequences of the panel's `permno` and truncated-date
columns in first-appearance order (every column value appears exactly once,
in the order the panel first produces it) — ascending only when the panel
itself is so ordered. -/
theorem axis_order_amended (obs : List MsfRow) (mems : List MseRow)
    (p : Params) :
    List.Sublist (permnoAxis (assemblePanel obs mems p))
      ((assemblePanel obs mems p).map fun r => r.obs.permno) ∧
    (permnoAxis (assemblePanel obs mems p)).Nodup ∧
    (∀ x ∈ (assemblePanel obs mems p).map (fun r => r.obs.permno),
      x ∈ permnoAxis (assemblePanel obs mems p)) ∧
    List.Sublist (MakeV.datesAxis (assemblePanel obs mems p))
      ((assemblePanel obs mems p).map fun r => r.obs.date.toYYYYMM) ∧
    (MakeV.datesAxis (assemblePanel obs mems p)).Nodup ∧
    (∀ x ∈ (assemblePanel obs mems p).map (fun r => r.obs.date.toYYYYMM),
      x ∈ MakeV.datesAxis (assemblePanel obs mems p)) :=
  ⟨unique_stable_sublist _, unique_stable_nodup _,
   fun _ hx => (mem_unique_stable _ _).2 hx,
   unique_stable_sublist _, unique_stable_nodup _,
   fun _ hx => (mem_unique_stable _ _).2 hx⟩

/-- Witness for the amended C4 on the out-of-order concrete panel. -/
theorem axis_order_amended_witness :
    (2 : Int) ∈ permnoAxis (assemblePanel exObs4 exMems4 exParams) ∧
    (200001 : Nat) ∈ MakeV.datesAxis (assemblePanel exObs4 exMems4 exParams) :=
  ⟨(axis_order_amended exObs4 exMems4 exParams).2.2.1 2 (by decide),
   (axis_order_amended exObs4 exMems4 exParams).2.2.2.2.2 200001 (by decide)⟩

/-- Claim C5 counterexample: in `make_crsp_monthly_data.rs` the loop calls
`process_variable(..)?`, so with `shrcd` given a dtype outside the five
pivot arms the whole run aborts with the error — no message-and-continue,
and no matrices are produced for the remaining fourteen variables. -/
theorem unsupported_type_counterexample :
    MakeV.make_crsp_monthly_data exObs exMems exDtypesBad exParams =
      .error "Unsupported data type for shrcd" := by
  decide

/-- Claim C5 (amended): in the `crsp_processing.rs` variant an unsupported
dtype is non-fatal — every supported variable still yields its matrix; in
the `make_crsp_monthly_data.rs` variant the `?` on `process_variable`
propagates the error, so any unsupported variable in the list makes the
whole loop fail. -/
theorem unsupported_type_amended (panel : List JoinedRow)
    (dtypes : List (String × DType)) (vars : List String) (v : String)
    (hv : v ∈ vars) :
    (((dtypes.lookup v).getD DType.str).supported = true →
      (v, CrspP.pivotFilled (CrspP.projectVar panel v)) ∈
        CrspP.processAll panel dtypes vars) ∧
    (((dtypes.lookup v).getD DType.str).supported = false →
      (MakeV.processAll panel dtypes vars).isOk = false) := by
  induction vars with
  | nil => cases hv
  | cons w ws ih =>
    rcases List.mem_cons.1 hv with rfl | hv'
    · constructor
      · intro hs
        simp only [CrspP.processAll, hs, if_true]
        exact List.mem_cons_self _ _
      · intro hs
        simp [MakeV.processAll, MakeV.process_variable, hs, Except.isOk, Except.toBool]
    · constructor
      · intro hs
        by_cases hw : ((dtypes.lookup w).getD DType.str).supported = true
        · simp only [CrspP.processAll, hw, if_true]
          exact List.mem_cons_of_mem _ ((ih hv').1 hs)
        · simp only [CrspP.processAll, eq_false_of_ne_true hw, if_false]
          exact (ih hv').1 hs
      · intro hs
        by_cases hw : ((dtypes.lookup w).getD DType.str).supported = true
        · have hrest := (ih hv').2 hs
          simp only [MakeV.processAll, MakeV.process_variable, hw, if_true]
          cases hmatch : MakeV.processAll panel dtypes ws with
          | error e => simp [Except.isOk, Except.toBool]
          | ok ms => rw [hmatch] at hrest; simp [Except.isOk, Except.toBool] at hrest
        · simp [MakeV.processAll, MakeV.process_variable,
            eq_false_of_ne_true hw, Except.isOk, Except.toBool]

/-- Witness for the amended C5: with `shrcd` unsupported, the
`crsp_processing.rs` loop still produces the `retx` matrix while the
`make_crsp_monthly_data.rs` loop fails. -/
theorem unsupported_type_amended_witness :
    ("retx", CrspP.pivotFilled
        (CrspP.projectVar (assemblePanel exObs exMems exParams) "retx")) ∈
      CrspP.processAll (assemblePanel exObs exMems exParams) exDtypesBad
        CrspP.varNames ∧
    (MakeV.processAll (assemblePanel exObs exMems exParams) exDtypesBad
        MakeV.varNames).isOk = false :=
  ⟨(unsupported_type_amended (assemblePanel exObs exMems exParams)
      exDtypesBad CrspP.varNames "retx" (by decide)).1 (by decide),
   (unsupported_type_amended (assemblePanel exObs exMems exParams)
      exDtypesBad MakeV.varNames "shrcd" (by decide)).2 (by decide)⟩

/-- If every requested variable's dtype is supported, the
`make_crsp_monthly_data.rs` variable loop succeeds. -/
theorem processAll_isOk_of_supported (panel : List JoinedRow)
    (dtypes : List (String × DType)) (vars : List String)
    (h : ∀ v ∈ vars, ((dtypes.lookup v).getD DType.str).supported = true) :
    (MakeV.processAll panel dtypes vars).isOk = true := by
  induction vars with
  | nil => simp [MakeV.processAll, Except.isOk, Except.toBool]
  | cons w ws ih =>
    have hw := h w (List.mem_cons_self w ws)
    have hrest := ih (fun v hv => h v (List.mem_cons_of_mem w hv))
    simp only [MakeV.processAll, MakeV.process_variable, hw, if_true]
    cases hmatch : MakeV.processAll panel dtypes ws with
    | error e => rw [hmatch] at hrest; simp [Except.isOk, Except.toBool] at hrest
    | ok ms => simp [Except.isOk, Except.toBool]

/-- Claim C6 counterexample: with an empty observation table the join and
all filters yield a zero-row panel, yet `make_crsp_monthly_data` returns
`Ok` — there is no zero-row check and no `EmptyResult` error anywhere in the
code — and it proceeds to persist the (empty) axes, the link file, and an
empty matrix for every one of the fifteen variables. -/
theorem empty_result_counterexample :
    MakeV.make_crsp_monthly_data ([] : List MsfRow) exMems exDtypes exParams =
      .ok ⟨[], [], [], MakeV.varNames.map (fun v => (v, []))⟩ := by
  decide

/-- Claim C6 (amended): `make_crsp_monthly_data` performs no emptiness check
at all — whenever every requested variable's dtype is supported the run
succeeds and persists axes, link file and matrices, no matter whether the
filtered panel has zero rows.  (Dtype errors are the only failure mode of
the modelled pipeline; `EmptyResult` does not exist in the source.) -/
theorem no_empty_result_amended (obs : List MsfRow) (mems : List MseRow)
    (dtypes : List (String × DType)) (p : Params)
    (h : ∀ v ∈ MakeV.varNames,
      ((dtypes.lookup v).getD DType.str).supported = true) :
    (MakeV.make_crsp_monthly_data obs mems dtypes p).isOk = true := by
  have hall := processAll_isOk_of_supported (assemblePanel obs mems p)
    dtypes MakeV.varNames h
  unfold MakeV.make_crsp_monthly_data
  cases hmatch : MakeV.processAll (assemblePanel obs mems p) dtypes
      MakeV.varNames with
  | error e => rw [hmatch] at hall; simp [Except.isOk, Except.toBool] at hall
  | ok ms => simp [hmatch, Except.isOk, Except.toBool]

/-- Witness for the amended C6 at the empty observation table. -/
theorem no_empty_result_amended_witness :
    (MakeV.make_crsp_monthly_data ([] : List MsfRow) exMems exDtypes
      exParams).isOk = true :=
  no_empty_result_amended [] exMems exDtypes exParams (by decide)

/-- Characterization of `filter_delisting_data`: a dated row survives iff
its underlying delisting row is in the table, its permno is in the loaded
permno axis, its raw `dlstdt` differs from the table-wide maximum `dlstdt`,
and its `%Y%m` truncation is strictly below the maximum of the loaded date
axis. -/
theorem mem_filter_delisting_data (ms : List DelistRow) (permno : List Int)
    (date : List Nat) (x : DelistDated) :
    x ∈ filter_delisting_data ms permno date ↔
      x.row ∈ ms ∧ permno.contains x.row.permno = true ∧
      x.row.dlstdt.toNum ≠ maxDlstdt ms ∧
      x.date = x.row.dlstdt.toYYYYMM ∧ x.date < listMax date := by
  unfold filter_delisting_data
  rw [List.mem_filter, List.mem_map]
  constructor
  · rintro ⟨⟨r, hr, rfl⟩, hlt⟩
    rw [List.mem_filter] at hr
    obtain ⟨hrm, hcond⟩ := hr
    simp only [Bool.and_eq_true, bne_iff_ne, ne_eq] at hcond
    refine ⟨hrm, hcond.1, hcond.2, rfl, by simpa using hlt⟩
  · rintro ⟨hrm, hc, hne, hdate, hlt⟩
    refine ⟨⟨x.row, ?_, ?_⟩, ?_⟩
    · rw [List.mem_filter]
      refine ⟨hrm, ?_⟩
      simp only [Bool.and_eq_true, bne_iff_ne, ne_eq]
      exact ⟨hc, hne⟩
    · cases x with
      | mk r d => simp only at hdate; rw [hdate]
    · simpa using hlt

/-- Claim C7 counterexample: the event `(permno 1, dlstdt 2000-02-15)`
satisfies every condition of the claim — its permno is in the axis, its
truncated date `200002` is `≤` the axis maximum `200002`, and its raw date
is not the table's sentinel-like maximum — yet `filter_delisting_data`
drops it, because the code compares with strict `lt`, not `≤`. -/
theorem delisting_filter_counterexample :
    filter_delisting_data exDelist [1] [200001, 200002] = [] ∧
    List.contains [(1 : Int)] (1 : Int) = true ∧
    (Date.mk 2000 2 15).toYYYYMM ≤ listMax [200001, 200002] ∧
    (Date.mk 2000 2 15).toNum ≠ maxDlstdt exDelist := by
  decide

/-- Claim C7 (amended): `filter_delisting_data` keeps exactly the rows whose
permno is in the persisted Entity Axis, whose raw `dlstdt` differs from the
maximum `dlstdt` of the delisting table (the code's proxy for the sentinel
"no delisting" value), and whose truncated date is strictly less than — not
less-than-or-equal-to — the maximum of the persisted Period Axis. -/
theorem delisting_filter_amended (ms : List DelistRow) (permno : List Int)
    (date : List Nat) (x : DelistDated) :
    x ∈ filter_delisting_data ms permno date ↔
      x.row ∈ ms ∧ permno.contains x.row.permno = true ∧
      x.row.dlstdt.toNum ≠ maxDlstdt ms ∧
      x.date = x.row.dlstdt.toYYYYMM ∧ x.date < listMax date :=
  mem_filter_delisting_data ms permno date x

/-- Claim C8 counterexample: delisting events for permno 7, absent from the
Entity Axis `[1, 2]`, are silently filtered away — the post-processor
returns the empty frame with no error of any kind (no `AxisMismatch` exists
in the code). -/
theorem axis_mismatch_counterexample :
    make_crsp_derived_variables [[0]] [1, 2] [200001, 200003] exDelist8 =
      [] ∧
    List.contains [(1 : Int), 2] (7 : Int) = false := by
  decide

/-- Claim C8 (amended): `make_crsp_derived_variables` never raises an error
for unknown keys — it is a total function whose `is_in` filter silently
drops every delisting event whose permno is absent from the persisted
Entity Axis, so any surviving row's permno is in the axis. -/
theorem axis_mismatch_amended (ret : List (List Int)) (permno : List Int)
    (date : List Nat) (ms : List DelistRow) (x : DelistDated)
    (hx : x ∈ make_crsp_derived_variables ret permno date ms) :
    permno.contains x.row.permno = true ∧ x.row ∈ ms := by
  have h := (mem_filter_delisting_data ms permno date x).1 hx
  exact ⟨h.2.1, h.1⟩

/-- Witness for the amended C8: a kept event's permno is in the axis. -/
theorem axis_mismatch_amended_witness :
    List.contains [(1 : Int)]
      (DelistDated.mk ⟨1, ⟨2000, 2, 15⟩, some 3⟩ 200002).row.permno = true ∧
    (DelistDated.mk ⟨1, ⟨2000, 2, 15⟩, some 3⟩ 200002).row ∈ exDelist :=
  axis_mismatch_amended [[0]] [1] [200001, 200003] exDelist
    (DelistDated.mk ⟨1, ⟨2000, 2, 15⟩, some 3⟩ 200002) (by decide)

/-- A `getD` on a mapped list below its length picks the image of the
corresponding element. -/
theorem getD_map_lt {α β : Type} (l : List α) (f : α → β) (i : Nat)
    (hi : i < l.length) (d : β) :
    (l.map f).getD i d = f (l.get ⟨i, hi⟩) := by
  rw [List.getD_eq_getElem _ _ (by simpa using hi)]
  simp [List.getElem_map]

/-- Claim C10 counterexample: on the same concrete input the two variants
disagree on the persisted period axis (`[200001, 200002]` in `%Y%m` versus
`[20000131, 20000229]` in `%Y%m%d`) and on the `retx` matrix
(`[[5], [6]]` versus its transpose `[[5, 6]]`). -/
theorem variant_equivalence_counterexample :
    (MakeV.make_crsp_monthly_data exObs exMems exDtypes exParams).map
        (fun o => (o.datesJson, o.matrices.lookup "retx")) =
      .ok ([200001, 200002], some [[5], [6]]) ∧
    (CrspP.make_crsp_monthly_data exObs exMems exDtypes exParams).datesJson =
      [20000131, 20000229] ∧
    (CrspP.make_crsp_monthly_data exObs exMems exDtypes
        exParams).matrices.lookup "retx" = some [[5, 6]] ∧
    ([200001, 200002] : List Nat) ≠ [20000131, 20000229] ∧
    ([[5], [6]] : List (List Int)) ≠ [[5, 6]] := by
  decide

/-- Claim C10 (amended): the two variants share the join/filter stage and
project identically every variable in the `crsp_processing.rs` list (none
of which is renamed), and their pivot matrices are transposes of one
another: cell `(i, j)` of the `crsp_processing.rs` matrix equals cell
`(j, i)` of the `make_crsp_monthly_data.rs` matrix.  They still differ in
period-axis encoding, in matrix orientation and in variable lists, as the
counterexample shows. -/
theorem variant_equivalence_amended (panel : List JoinedRow)
    (rows : List ProjRow) (i j : Nat) (a b : Int)
    (hi : i < (permnoKeys rows).length) (hj : j < (dateKeys rows).length) :
    (∀ v ∈ CrspP.varNames,
      MakeV.projectVar panel v = CrspP.projectVar panel v) ∧
    ((CrspP.pivotFilled rows).getD i []).getD j a =
      ((MakeV.pivotFilled rows).getD j []).getD i b := by
  constructor
  · intro v hv
    fin_cases hv <;> rfl
  · unfold CrspP.pivotFilled MakeV.pivotFilled
    rw [getD_map_lt _ _ i hi, getD_map_lt _ _ j hj,
      getD_map_lt _ _ j hj, getD_map_lt _ _ i hi]

/-- Witness for the amended C10: transposed cells agree on the concrete
projection, with two distinct out-of-range defaults showing the bounds are
really in force. -/
theorem variant_equivalence_amended_witness :
    ((CrspP.pivotFilled exProj).getD 0 []).getD 0 17 =
      ((MakeV.pivotFilled exProj).getD 0 []).getD 0 23 :=
  (variant_equivalence_amended [] exProj 0 0 17 23 (by decide) (by decide)).2

end AssayingAnomalies
